import Mathlib

/-!
Verification of the document segmentation and segment-addressing pipeline of
the `builder` repository, as a shallow embedding in Lean 4.

Embedded source files:
* `src/apps/api/models/data_loader/document_processor.py`
  (document handlers, splitting, urn assignment, `load_and_split_documents`)
* `src/apps/api/routers/dataset.py`
  (`retrieve_document_segments`, `update_segment` endpoints)
* `src/apps/api/models/controller/webhook.py`
  (`WebhookHandler.update_status` with its tenacity retry policy)

External collaborators (network fetches, the langchain text splitter, the
`dataset_manager` store) are represented as explicit function parameters or,
where the repository's own code is absent from the tree, as definitions
modelled from the specification (each such definition says so in its doc
comment).
-/

/-- `split_option` of a document: a Python dict read with
`.get("chunk_size", 100)` / `.get("chunk_overlap", 0)`, so both keys are
optional. -/
structure SplitOption where
  chunk_size : Option Int
  chunk_overlap : Option Int
deriving DecidableEq, Repr

/-- A document record as used by the data loader: `uid`, `url`, `type` and
the splitting options. -/
structure Document where
  uid : String
  url : String
  type : String
  split_option : SplitOption
deriving DecidableEq, Repr

/-- A dataset: an id and its list of documents. -/
structure Dataset where
  id : String
  documents : List Document
deriving DecidableEq, Repr

/-- A processed chunk as produced by `DocumentHandler.process`: the
`page_content` together with the `page_number` and `urn` metadata entries. -/
structure SegDoc where
  content : String
  page_number : Nat
  urn : String
deriving DecidableEq, Repr

/-- Effective `chunk_size`: `document.split_option.get("chunk_size", 100)`. -/
def chunkSizeOf (d : Document) : Int :=
  d.split_option.chunk_size.getD 100

/-- Effective `chunk_overlap`: `document.split_option.get("chunk_overlap", 0)`. -/
def chunkOverlapOf (d : Document) : Int :=
  d.split_option.chunk_overlap.getD 0

/-- Observable events of one `process` run, used to express the order of the
content fetch relative to splitter-option validation. -/
inductive PEvent where
  | fetch
  | split
deriving DecidableEq, Repr

/-- `DocumentProcessingMixin.get_text_splitter`: builds the character splitter
from the document's `split_option`.  The constructed splitter itself is the
external `langchain` `CharacterTextSplitter.from_tiktoken_encoder`, so it is a
parameter `mk` taking the `chunk_size` and `chunk_overlap`.

Modelled from the spec: the option validation lives in the external langchain
`TextSplitter` constructor (not part of this repository); it raises exactly
when `chunk_overlap > chunk_size`. -/
def get_text_splitter (mk : Int → Int → String → List String)
    (document : Document) : Except String (String → List String) :=
  if chunkOverlapOf document > chunkSizeOf document then
    Except.error "Got a larger chunk overlap than chunk size"
  else
    Except.ok (mk (chunkSizeOf document) (chunkOverlapOf document))

/-- Helper of `splitChar`: accumulate the current piece (reversed) while
scanning the characters. -/
def splitCharGo (sep : Char) (cur : List Char) : List Char → List (List Char)
  | [] => [cur.reverse]
  | c :: cs =>
      if c = sep then cur.reverse :: splitCharGo sep [] cs
      else splitCharGo sep (c :: cur) cs

/-- Python's `str.split(sep)` for a one-character separator: split at every
occurrence, keeping empty pieces.  (Executable counterpart of
`String.splitOn` for a single-character separator.) -/
def splitChar (sep : Char) (s : String) : List String :=
  (splitCharGo sep [] s.data).map String.mk

/-- `DocumentProcessingMixin.split_content`: split the text on form feeds
(page boundaries), `content.split("\f")`. -/
def DocumentProcessingMixin.split_content (content : String) : List String :=
  splitChar (Char.ofNat 12) content

/-- `AnnotatedDataHandler.split_content`: the whole transcript as a single
part ("as annotated data might not be split with a form feed"). -/
def AnnotatedDataHandler.split_content (content : String) : List String :=
  [content]

/-- Segment id / `urn` format used by `DocumentHandler.process`:
`f"{dataset.id}-{document.url}-{page_number}"`. -/
def mkUrn (datasetId url : String) (i : Nat) : String :=
  datasetId ++ "-" ++ url ++ "-" ++ toString i

/-- The enumeration loop of `DocumentHandler.process`: attach
`page_number = index` and the `urn` metadata to each chunk. -/
def assignUrns (datasetId url : String) (chunks : List String) : List SegDoc :=
  chunks.enum.map (fun p => { content := p.2, page_number := p.1,
                              urn := mkUrn datasetId url p.1 })

/-- `DocumentHandler.process`: fetch the content, build the text splitter,
wrap each `split_content` part in a langchain `Document`, run
`text_splitter.split_documents` over them, then enumerate and stamp
`page_number` and `urn`.

`mk` stands for the external langchain splitter family (given the options);
`sc` is the handler's `split_content`; `fetched` is the string returned by
`fetch_content` (an external storage call).  The first component records the
events in their order in the source: the fetch (line 92) happens before the
splitter construction (line 93), so it is present even when the options are
rejected. -/
def DocumentHandler.process (mk : Int → Int → String → List String)
    (sc : String → List String) (fetched : String)
    (document : Document) (dataset : Dataset) :
    List PEvent × Except String (List SegDoc) :=
  match get_text_splitter mk document with
  | Except.error e => ([PEvent.fetch], Except.error e)
  | Except.ok ts =>
      ([PEvent.fetch, PEvent.split],
        Except.ok (assignUrns dataset.id document.url
          ((sc fetched).flatMap ts)))

/-- The handler table of `load_and_split_documents`: `split_content` strategy
per supported document type (`pdf` and `annotated_data` in
`document_processor.py`). -/
def handlerFor (t : String) : Option (String → List String) :=
  if t = "pdf" then some DocumentProcessingMixin.split_content
  else if t = "annotated_data" then some AnnotatedDataHandler.split_content
  else none

/-- One document's turn in the loop of `load_and_split_documents`: look up
the handler for `document.type` and run `handler.process`; an unsupported
type raises `Exception("Document type not supported")`. -/
def processDoc1 (mk : Int → Int → String → List String)
    (fetch : Document → String) (dataset : Dataset) (d : Document) :
    Except String (List SegDoc) :=
  match handlerFor d.type with
  | none => Except.error "Document type not supported"
  | some sc => (DocumentHandler.process mk sc (fetch d) d dataset).2

/-- Inner loop of `load_and_split_documents` over one dataset's documents:
process each document with its handler, extending the accumulated list; a
raised exception propagates and aborts the whole call. -/
def processDocs (mk : Int → Int → String → List String)
    (fetch : Document → String) (dataset : Dataset) :
    List Document → Except String (List SegDoc)
  | [] => Except.ok []
  | d :: rest =>
      (processDoc1 mk fetch dataset d).bind (fun segs =>
        (processDocs mk fetch dataset rest).map (fun tail => segs ++ tail))

/-- `load_and_split_documents`: iterate over all datasets and their documents,
concatenating the processed segments; any raised exception aborts the whole
call. -/
def load_and_split_documents (mk : Int → Int → String → List String)
    (fetch : Document → String) :
    List Dataset → Except String (List SegDoc)
  | [] => Except.ok []
  | ds :: rest =>
      (processDocs mk fetch ds ds.documents).bind (fun segs =>
        (load_and_split_documents mk fetch rest).map (fun tail => segs ++ tail))

/-- Greedy packing of words into chunks of at most `cs` characters
(helper of `characterWindow`). -/
def packGo (cs : Nat) (cur : String) : List String → List String
  | [] => [cur]
  | w :: ws =>
      let cand := cur ++ " " ++ w
      if cand.length ≤ cs then packGo cs cand ws
      else cur :: packGo cs w ws

/-- Modelled from the spec: the character-window chunk splitter (§4.2) that
the repository delegates to langchain's
`CharacterTextSplitter.from_tiktoken_encoder` (external to this repository):
it splits the text at the word separator `" "` and packs words into chunks of
at most `chunk_size` length units, never splitting inside a word.  Used as a
concrete instance of the splitter parameter `mk`. -/
def characterWindow (cs : Nat) (text : String) : List String :=
  match splitChar ' ' text with
  | [] => []
  | w :: ws => packGo cs w ws

/-! ### The stored-segment side: router `dataset.py` and the segment store -/

/-- A stored segment as served by the segment endpoints. -/
structure Segment where
  segment_id : String
  content : String
  page_number : Nat
deriving DecidableEq, Repr

/-- Character-list test used to express substring containment: `listPre n h`
is true when `n` is an initial run of `h`. -/
def listPre : List Char → List Char → Bool
  | [], _ => true
  | _ :: _, [] => false
  | a :: as, b :: bs => a == b && listPre as bs

/-- `listSub n h`: `n` occurs contiguously inside `h`. -/
def listSub (n : List Char) : List Char → Bool
  | [] => listPre n []
  | c :: t => listPre n (c :: t) || listSub n t

/-- Python's `needle in hay` on strings: substring containment,
case-sensitive. -/
def strContains (hay needle : String) : Bool :=
  listSub needle.data hay.data

/-- Ordering of stored segments by ascending `page_number`. -/
def pageLE (a b : Segment) : Prop :=
  a.page_number ≤ b.page_number

instance : DecidableRel pageLE := fun a b => Nat.decLe a.page_number b.page_number

instance : IsTotal Segment pageLE := ⟨fun a b => Nat.le_total a.page_number b.page_number⟩

instance : IsTrans Segment pageLE := ⟨fun _ _ _ h h' => Nat.le_trans h h'⟩

/-- Sort a document's stored segments by ascending `page_number`. -/
def sortByPage (store : List Segment) : List Segment :=
  List.insertionSort pageLE store

/-- The `data` payload returned for a segments listing. -/
structure SegmentsPage where
  totalItems : Nat
  segments : List Segment
deriving DecidableEq, Repr

/-- Response shape of the segments listing endpoint (its `status` is the
string `"200"` in the source). -/
structure SegmentsResponse where
  message : String
  status : String
  data : Option SegmentsPage
deriving DecidableEq, Repr

/-- Modelled from the spec: `dataset_manager.get_document_segments` (the
`models/controller` dataset manager is not under `src/`; §4.6 of the spec).
Given the document's stored segments, order by ascending `page_number`,
filter by the optional substring `query` (filtered count reported as
`totalItems`), then apply `offset`/`limit`. -/
def get_document_segments (store : List Segment) (offset limit : Nat)
    (query : Option String) : SegmentsPage :=
  let sorted := sortByPage store
  let filtered := match query with
    | none => sorted
    | some q => sorted.filter (fun s => strContains s.content q)
  { totalItems := filtered.length,
    segments := (filtered.drop offset).take limit }

/-- `retrieve_document_segments` (router `dataset.py`): the route declares
only `offset` (default 0) and `limit` (default 10) as query parameters; an
incoming `query` parameter of the HTTP request is not bound and is never
passed to `dataset_manager.get_document_segments`, which is called as
`get_document_segments(dataset_id, uid, offset, limit)`. -/
def retrieve_document_segments (store : List Segment)
    (offsetParam limitParam : Option Nat) (_queryParam : Option String) :
    SegmentsResponse :=
  let offset := offsetParam.getD 0
  let limit := limitParam.getD 10
  { message := "success", status := "200",
    data := some (get_document_segments store offset limit none) }

/-- Modelled from the spec: `dataset_manager.update_segment` (not under
`src/`; §4.7 of the spec).  Empty `content` means delete that segment from
the store without renumbering the others; non-empty `content` replaces only
that segment's content in place. -/
def update_segment_manager (store : List Segment) (segment_id content : String) :
    List Segment :=
  if content = "" then
    store.filter (fun s => !(s.segment_id == segment_id))
  else
    store.map (fun s =>
      if s.segment_id == segment_id then
        { segment_id := s.segment_id, content := content,
          page_number := s.page_number }
      else s)

/-- Response shape of the segment mutation endpoint (integer `status`). -/
structure MutResponse where
  message : String
  status : Nat
deriving DecidableEq, Repr

/-- `update_segment` (router `dataset.py`): if the request body has no
`"content"` key, return `{"message": "content is required", "status": 400}`
without touching the store; otherwise delegate to
`dataset_manager.update_segment` and answer success.  The request body's
`content` entry is modelled as an `Option String`. -/
def update_segment (store : List Segment)
    (_dataset_id _uid : String) (segment_id : String)
    (content : Option String) : List Segment × MutResponse :=
  match content with
  | none => (store, { message := "content is required", status := 400 })
  | some c => (update_segment_manager store segment_id c,
               { message := "success", status := 200 })

/-! ### The webhook retry policy: `webhook.py` -/

/-- Retry loop of the `tenacity` decorator
`@retry(stop=stop_after_attempt(n), wait=wait_fixed(w), reraise=True)`:
`call i` is the outcome of the `i`-th delivery attempt (an HTTP POST plus
`raise_for_status`), the fuel is the number of attempts still allowed.
Returns the final outcome, the number of attempts performed, and the list of
waits slept between attempts.  With `reraise=True` the last exception is
re-raised after the final attempt. -/
def retryGo (call : Nat → Except String Unit) (wait : Nat) (attempt : Nat) :
    Nat → Except String Unit × Nat × List Nat
  | 0 => (Except.error "no attempts allowed", 0, [])
  | 1 => (call attempt, 1, [])
  | Nat.succ (Nat.succ k) =>
      match call attempt with
      | Except.ok u => (Except.ok u, 1, [])
      | Except.error _ =>
          let r := retryGo call wait (attempt + 1) (Nat.succ k)
          (r.1, r.2.1 + 1, wait :: r.2.2)

/-- `WebhookHandler.update_status`: deliver the status webhook under
`stop_after_attempt(3)`, `wait_fixed(2)` and `reraise=True`. -/
def WebhookHandler.update_status (call : Nat → Except String Unit) :
    Except String Unit × Nat × List Nat :=
  retryGo call 2 1 3

/-! ## Theorems -/

/-- C1, counterexample: for an annotated-data document whose `uid` (`"u"`)
differs from its `url` (`"w"`), the produced urn is built from the `url`,
not the `uid` as the claim states: it is `"d-w-0"`, not `"d-u-0"`. -/
theorem urn_locator_not_uid_for_annotated :
    ((DocumentHandler.process (fun _ _ s => [s]) AnnotatedDataHandler.split_content
        "hello" ⟨"u", "w", "annotated_data", ⟨none, none⟩⟩ ⟨"d", []⟩).2.map
      (List.map SegDoc.urn)) = Except.ok ["d-w-0"]
    ∧ ("d-w-0" : String) ≠ "d-u-0" :=
  ⟨rfl, by decide⟩

/-- C1, amended: every segment produced by `DocumentHandler.process` carries
`urn = f"{dataset.id}-{document.url}-{ordinal}"` — the locator is
`document.url` for every document type, annotated data included — and
`page_number` equals the segment's 0-based position. -/
theorem urn_is_dataset_url_ordinal
    (mk : Int → Int → String → List String) (sc : String → List String)
    (fetched : String) (document : Document) (dataset : Dataset)
    (segs : List SegDoc)
    (h : (DocumentHandler.process mk sc fetched document dataset).2
          = Except.ok segs)
    (i : Nat) (seg : SegDoc) (hseg : segs[i]? = some seg) :
    seg.urn = mkUrn dataset.id document.url i ∧ seg.page_number = i := by
  unfold DocumentHandler.process get_text_splitter at h
  by_cases hv : chunkOverlapOf document > chunkSizeOf document
  · rw [if_pos hv] at h
    exact Except.noConfusion h
  · rw [if_neg hv] at h
    have hsegs : assignUrns dataset.id document.url
        ((sc fetched).flatMap
          (mk (chunkSizeOf document) (chunkOverlapOf document))) = segs :=
      Except.ok.inj h
    subst hsegs
    unfold assignUrns at hseg
    rw [List.getElem?_map, List.getElem?_enum] at hseg
    cases hc : ((sc fetched).flatMap
        (mk (chunkSizeOf document) (chunkOverlapOf document)))[i]? with
    | none =>
        rw [hc] at hseg
        exact Option.noConfusion hseg
    | some c =>
        rw [hc] at hseg
        have hs : SegDoc.mk c i (mkUrn dataset.id document.url i) = seg :=
          Option.some.inj hseg
        rw [← hs]
        exact ⟨rfl, rfl⟩

/-- C1, witness for the amended theorem at a concrete annotated document. -/
theorem urn_is_dataset_url_ordinal_witness :
    (⟨"hello", 0, "d-w-0"⟩ : SegDoc).urn = mkUrn "d" "w" 0
    ∧ (⟨"hello", 0, "d-w-0"⟩ : SegDoc).page_number = 0 :=
  urn_is_dataset_url_ordinal (fun _ _ s => [s]) AnnotatedDataHandler.split_content
    "hello" ⟨"u", "w", "annotated_data", ⟨none, none⟩⟩ ⟨"d", []⟩
    [⟨"hello", 0, "d-w-0"⟩] rfl 0 ⟨"hello", 0, "d-w-0"⟩ rfl

/-- C2, counterexample: an annotated-data document is windowed by the chunk
splitter: with the character-window splitter at `chunk_size = 2`, the
transcript `"aa bb"` yields two segments, not one.  (The repository's own
test `test_update_dataset_with_annotated_data` likewise expects 7 segments
from one transcript at `chunk_size = 20`.) -/
theorem annotated_windowed_counterexample :
    ((DocumentHandler.process (fun cs _ s => characterWindow cs.toNat s)
        AnnotatedDataHandler.split_content "aa bb"
        ⟨"u", "w", "annotated_data", ⟨some 2, some 0⟩⟩ ⟨"d", []⟩).2.map
      List.length) = Except.ok 2
    ∧ (2 : Nat) ≠ 1 :=
  ⟨rfl, by decide⟩

/-- C2, amended: `AnnotatedDataHandler.split_content` does return the whole
transcript as a single part (no form-feed splitting), but `process` then
passes that part through the chunk splitter built from the document's
options, so the segments are exactly the splitter's chunks of the whole
transcript — possibly more than one. -/
theorem annotated_single_part_then_split
    (mk : Int → Int → String → List String) (fetched : String)
    (document : Document) (dataset : Dataset)
    (h : chunkOverlapOf document ≤ chunkSizeOf document) :
    AnnotatedDataHandler.split_content fetched = [fetched]
    ∧ (DocumentHandler.process mk AnnotatedDataHandler.split_content fetched
          document dataset).2
        = Except.ok (assignUrns dataset.id document.url
            (mk (chunkSizeOf document) (chunkOverlapOf document) fetched)) := by
  refine ⟨rfl, ?_⟩
  unfold DocumentHandler.process get_text_splitter
  rw [if_neg (by omega : ¬ chunkOverlapOf document > chunkSizeOf document)]
  simp [AnnotatedDataHandler.split_content]

/-- C2, witness for the amended theorem at a concrete annotated document. -/
theorem annotated_single_part_then_split_witness :
    AnnotatedDataHandler.split_content "hi" = ["hi"]
    ∧ (DocumentHandler.process (fun _ _ s => [s])
          AnnotatedDataHandler.split_content "hi"
          ⟨"u", "w", "annotated_data", ⟨none, none⟩⟩ ⟨"d", []⟩).2
        = Except.ok (assignUrns "d" "w" ["hi"]) :=
  annotated_single_part_then_split (fun _ _ s => [s]) "hi"
    ⟨"u", "w", "annotated_data", ⟨none, none⟩⟩ ⟨"d", []⟩ (by decide)

/-- C8: ingestion is a deterministic function of its inputs — two runs of
`DocumentHandler.process` on the same dataset id, document, options and
fetched content produce identical segment urns in identical order. -/
theorem ingestion_deterministic
    (mk : Int → Int → String → List String) (sc : String → List String)
    (fetched : String) (document : Document) (dataset : Dataset)
    (r₁ r₂ : List PEvent × Except String (List SegDoc))
    (h₁ : r₁ = DocumentHandler.process mk sc fetched document dataset)
    (h₂ : r₂ = DocumentHandler.process mk sc fetched document dataset) :
    r₁.2.map (List.map SegDoc.urn) = r₂.2.map (List.map SegDoc.urn) := by
  rw [h₁, h₂]

/-- C8, witness: two concrete runs on the same inputs agree. -/
theorem ingestion_deterministic_witness :
    (DocumentHandler.process (fun _ _ s => [s])
        AnnotatedDataHandler.split_content "txt"
        ⟨"u", "w", "annotated_data", ⟨none, none⟩⟩ ⟨"d", []⟩).2.map
      (List.map SegDoc.urn)
    = (DocumentHandler.process (fun _ _ s => [s])
        AnnotatedDataHandler.split_content "txt"
        ⟨"u", "w", "annotated_data", ⟨none, none⟩⟩ ⟨"d", []⟩).2.map
      (List.map SegDoc.urn) :=
  ingestion_deterministic (fun _ _ s => [s]) AnnotatedDataHandler.split_content
    "txt" ⟨"u", "w", "annotated_data", ⟨none, none⟩⟩ ⟨"d", []⟩ _ _ rfl rfl

/-- C3, counterexample: a dataset update whose document list holds a
supported pdf, then an unsupported `"excel"` document, then another
supported pdf, fails as a whole: `load_and_split_documents` raises
`Exception("Document type not supported")` and returns no segments at all,
so the supported sibling after the unsupported document is not processed. -/
theorem unsupported_type_aborts_siblings_counterexample :
    load_and_split_documents (fun _ _ s => [s]) (fun _ => "t")
      [⟨"d", [⟨"u1", "w1", "pdf", ⟨none, none⟩⟩,
              ⟨"u2", "w2", "excel", ⟨none, none⟩⟩,
              ⟨"u3", "w3", "pdf", ⟨none, none⟩⟩]⟩]
      = Except.error "Document type not supported" := rfl

/-- Helper for C3: any unsupported document anywhere in the list makes the
per-dataset loop of `load_and_split_documents` raise. -/
theorem processDocs_error_of_unsupported
    (mk : Int → Int → String → List String) (fetch : Document → String)
    (dataset : Dataset) (docs : List Document) (document : Document)
    (hmem : document ∈ docs) (hunsup : handlerFor document.type = none) :
    ∃ e, processDocs mk fetch dataset docs = Except.error e := by
  induction docs with
  | nil => cases hmem
  | cons d rest ih =>
      rcases List.mem_cons.mp hmem with heq | hmem2
      · subst heq
        refine ⟨"Document type not supported", ?_⟩
        simp only [processDocs, processDoc1]
        rw [hunsup]
        rfl
      · simp only [processDocs]
        cases hp : processDoc1 mk fetch dataset d with
        | error e => exact ⟨e, rfl⟩
        | ok segs =>
            obtain ⟨e, he⟩ := ih hmem2
            refine ⟨e, ?_⟩
            rw [he]
            rfl

/-- C3, amended: one document of unsupported type in a dataset update makes
the whole `load_and_split_documents` call raise — the sibling documents in
the same update are not processed (no segments are returned for any of
them). -/
theorem unsupported_type_aborts_update
    (mk : Int → Int → String → List String) (fetch : Document → String)
    (datasets : List Dataset) (dataset : Dataset) (document : Document)
    (hds : dataset ∈ datasets) (hdoc : document ∈ dataset.documents)
    (hunsup : handlerFor document.type = none) :
    ∃ e, load_and_split_documents mk fetch datasets = Except.error e := by
  induction datasets with
  | nil => cases hds
  | cons ds rest ih =>
      rcases List.mem_cons.mp hds with heq | hmem2
      · subst heq
        obtain ⟨e, he⟩ := processDocs_error_of_unsupported mk fetch dataset
          dataset.documents document hdoc hunsup
        refine ⟨e, ?_⟩
        simp only [load_and_split_documents]
        rw [he]
        rfl
      · simp only [load_and_split_documents]
        cases hp : processDocs mk fetch ds ds.documents with
        | error e => exact ⟨e, rfl⟩
        | ok segs =>
            obtain ⟨e, he⟩ := ih hmem2
            refine ⟨e, ?_⟩
            rw [he]
            rfl

/-- C3, witness for the amended theorem at the concrete three-document
update. -/
theorem unsupported_type_aborts_update_witness :
    ∃ e, load_and_split_documents (fun _ _ s => [s]) (fun _ => "t")
      [⟨"d", [⟨"u1", "w1", "pdf", ⟨none, none⟩⟩,
              ⟨"u2", "w2", "excel", ⟨none, none⟩⟩,
              ⟨"u3", "w3", "pdf", ⟨none, none⟩⟩]⟩]
      = Except.error e :=
  unsupported_type_aborts_update (fun _ _ s => [s]) (fun _ => "t")
    [⟨"d", [⟨"u1", "w1", "pdf", ⟨none, none⟩⟩,
            ⟨"u2", "w2", "excel", ⟨none, none⟩⟩,
            ⟨"u3", "w3", "pdf", ⟨none, none⟩⟩]⟩]
    ⟨"d", [⟨"u1", "w1", "pdf", ⟨none, none⟩⟩,
           ⟨"u2", "w2", "excel", ⟨none, none⟩⟩,
           ⟨"u3", "w3", "pdf", ⟨none, none⟩⟩]⟩
    ⟨"u2", "w2", "excel", ⟨none, none⟩⟩ (by decide) (by decide) rfl

/-- C4, evaluated at the failing input: a document with two stored segments,
contents `"ab"` and `"b"`, queried with `q = "a"`.  The endpoint ignores the
`query` request parameter (the route never binds it), so it returns both
segments — including `"b"`, which does not contain `"a"` — and reports
`totalItems = 2`, while the count of segments containing `"a"` is 1. -/
theorem query_param_ignored_at_failing_input :
    (retrieve_document_segments
        [⟨"t-u-0", "ab", 0⟩, ⟨"t-u-1", "b", 1⟩] none none (some "a"))
      = ⟨"success", "200", some ⟨2, [⟨"t-u-0", "ab", 0⟩, ⟨"t-u-1", "b", 1⟩]⟩⟩
    ∧ strContains "b" "a" = false
    ∧ (([⟨"t-u-0", "ab", 0⟩, ⟨"t-u-1", "b", 1⟩] : List Segment).filter
          (fun s => strContains s.content "a")).length = 1 :=
  ⟨rfl, rfl, rfl⟩

/-- C5: for a document with `N` stored segments, listing with offset `o` and
limit `l` returns exactly `min l (N - o)` segments (truncated subtraction,
i.e. `min(l, max(0, N-o))`), ordered by ascending `page_number`. -/
theorem pagination_length_and_order (store : List Segment) (o l : Nat) :
    ((get_document_segments store o l none).segments).length
        = min l (store.length - o)
    ∧ ((get_document_segments store o l none).segments).Pairwise pageLE := by
  constructor
  · show ((((sortByPage store)).drop o).take l).length = _
    rw [List.length_take, List.length_drop]
    rw [sortByPage, List.length_insertionSort]
  · have hs : (sortByPage store).Pairwise pageLE :=
      List.sorted_insertionSort pageLE store
    exact List.Pairwise.sublist
      ((List.take_sublist l ((sortByPage store).drop o)).trans
        (List.drop_sublist o (sortByPage store))) hs

/-- Helper for C6: removing the elements satisfying `p` shortens a list by
exactly the number of such elements. -/
theorem length_filter_not_add_countP {α : Type} (p : α → Bool) (l : List α) :
    (l.filter (fun a => !(p a))).length + l.countP p = l.length := by
  induction l with
  | nil => rfl
  | cons a t ih =>
      by_cases hp : p a = true
      · simp [List.filter_cons, List.countP_cons, hp]
        omega
      · simp [List.filter_cons, List.countP_cons, hp]
        omega

/-- C6: `edit_segment` semantics of the segment store.  Empty content
deletes exactly the addressed segment — the count drops by exactly 1 (when
the id addresses exactly one stored segment) and every other segment
survives verbatim, keeping its id and ordinal.  Non-empty content replaces
only the addressed segment's content in place, preserving its
`segment_id` and `page_number`, every other segment, and the count. -/
theorem update_segment_semantics (store : List Segment) (sid c : String) :
    (c = "" →
      ((store.countP (fun s => s.segment_id == sid) = 1 →
          (update_segment_manager store sid c).length + 1 = store.length)
        ∧ ∀ s : Segment, s ∈ update_segment_manager store sid c
            ↔ (s ∈ store ∧ s.segment_id ≠ sid)))
    ∧ (c ≠ "" →
      ((update_segment_manager store sid c).length = store.length
        ∧ ∀ i : Nat, (update_segment_manager store sid c)[i]?
            = (store[i]?).map (fun s =>
                if s.segment_id == sid then
                  Segment.mk s.segment_id c s.page_number
                else s))) := by
  constructor
  · intro hc
    subst hc
    constructor
    · intro hcount
      have hlen := length_filter_not_add_countP
        (fun s => s.segment_id == sid) store
      unfold update_segment_manager
      rw [if_pos rfl]
      omega
    · intro s
      unfold update_segment_manager
      rw [if_pos rfl]
      rw [List.mem_filter]
      constructor
      · rintro ⟨hmem, hfilt⟩
        refine ⟨hmem, ?_⟩
        simpa using hfilt
      · rintro ⟨hmem, hne⟩
        refine ⟨hmem, ?_⟩
        simpa using hne
  · intro hc
    unfold update_segment_manager
    rw [if_neg hc]
    exact ⟨by simp, fun i => List.getElem?_map _ _ i⟩

/-- C6, witness: on a two-segment store, deleting `"a"` (empty content)
drops the count to 1, and replacing its content with `"z"` keeps the count
at 2. -/
theorem update_segment_semantics_witness :
    (update_segment_manager [⟨"a", "x", 0⟩, ⟨"b", "y", 1⟩] "a" "").length + 1 = 2
    ∧ (update_segment_manager [⟨"a", "x", 0⟩, ⟨"b", "y", 1⟩] "a" "z").length = 2 :=
  ⟨((update_segment_semantics [⟨"a", "x", 0⟩, ⟨"b", "y", 1⟩] "a" "").1 rfl).1
      (by decide),
    ((update_segment_semantics [⟨"a", "x", 0⟩, ⟨"b", "y", 1⟩] "a" "z").2
      (by decide)).1⟩

/-- C7, counterexample: a document with `chunk_overlap = 10 > chunk_size = 5`
is rejected, but only at splitter construction, which the source runs after
`fetch_content`: the failing run's event trace contains the fetch.
Moreover `chunk_overlap = chunk_size = 5` is accepted, so the claimed
rejection of `chunk_overlap >= chunk_size` does not hold at equality. -/
theorem overlap_validation_after_fetch_counterexample :
    (DocumentHandler.process (fun _ _ s => [s])
        DocumentProcessingMixin.split_content "txt"
        ⟨"u", "w", "pdf", ⟨some 5, some 10⟩⟩ ⟨"d", []⟩)
      = ([PEvent.fetch], Except.error "Got a larger chunk overlap than chunk size")
    ∧ PEvent.fetch ∈ [PEvent.fetch]
    ∧ (DocumentHandler.process (fun _ _ s => [s])
        DocumentProcessingMixin.split_content "txt"
        ⟨"u", "w", "pdf", ⟨some 5, some 5⟩⟩ ⟨"d", []⟩).2.isOk = true :=
  ⟨rfl, by decide, rfl⟩

/-- C7, amended: option validation happens at splitter construction, after
the document's content has been fetched (the fetch is the first event of
every run, accepted or rejected), and it rejects exactly
`chunk_overlap > chunk_size` — equality is accepted — so after validation
`chunk_overlap ≤ chunk_size` holds. -/
theorem overlap_validation_amended
    (mk : Int → Int → String → List String) (sc : String → List String)
    (fetched : String) (document : Document) (dataset : Dataset) :
    ((DocumentHandler.process mk sc fetched document dataset).1).head?
        = some PEvent.fetch
    ∧ ((DocumentHandler.process mk sc fetched document dataset).2.isOk = true
        ↔ chunkOverlapOf document ≤ chunkSizeOf document) := by
  unfold DocumentHandler.process get_text_splitter
  by_cases hv : chunkOverlapOf document > chunkSizeOf document
  · rw [if_pos hv]
    exact ⟨rfl, iff_of_false (fun hcontra => Bool.noConfusion hcontra) (by omega)⟩
  · rw [if_neg hv]
    exact ⟨rfl, iff_of_true rfl (by omega)⟩

/-- C9, counterexample: when every delivery attempt fails, the webhook call
makes 3 attempts with fixed waits of 2 between them and then the last
exception propagates to the caller (`reraise=True`), instead of being
surfaced to logs only. -/
theorem webhook_reraises_counterexample :
    WebhookHandler.update_status (fun _ => Except.error "boom")
      = (Except.error "boom", 3, [2, 2]) := rfl

/-- C9, amended: a failing delivery is attempted up to 3 times
(`stop_after_attempt(3)`) with a fixed delay of 2 between attempts
(`wait_fixed(2)`); each failure is logged, and after exhaustion the last
exception is re-raised to the caller (`reraise=True`). -/
theorem webhook_retry_amended
    (call : Nat → Except String Unit) (msg : Nat → String)
    (h : ∀ i, call i = Except.error (msg i)) :
    WebhookHandler.update_status call = (Except.error (msg 3), 3, [2, 2]) := by
  simp [WebhookHandler.update_status, retryGo, h]

/-- C9, witness for the amended theorem with attempt-indexed error
messages. -/
theorem webhook_retry_amended_witness :
    WebhookHandler.update_status (fun i => Except.error ("fail" ++ toString i))
      = (Except.error "fail3", 3, [2, 2]) :=
  webhook_retry_amended (fun i => Except.error ("fail" ++ toString i))
    (fun i => "fail" ++ toString i) (fun _ => rfl)

/-- C10: a segment update whose request body has no `"content"` key mutates
nothing — the store is returned unchanged — and answers
`{"message": "content is required", "status": 400}` without raising. -/
theorem missing_content_no_mutation (store : List Segment)
    (dataset_id uid segment_id : String) :
    update_segment store dataset_id uid segment_id none
      = (store, ⟨"content is required", 400⟩) := rfl
